import Mathlib

set_option autoImplicit false

/-!
Shallow embedding of the qibo circuit model:
`src/qibo/base/circuit.py` (class `BaseCircuit`) and the tensorflow
gradient adapter
`docker/src/qibo/tensorflow/custom_operators/python/ops/qibo_tf_custom_operators_grads.py`.

Python runtime failures are made explicit through an error type `Err`:
each constructor corresponds to one raise site (or implicit runtime
error) of the source, with the Python exception class noted in a comment.
Attribute presence of the never-initialized field `_final_state` is
modelled by an `Option (Option Unit)`: `none` means the attribute was
never assigned (reading it raises AttributeError), `some none` means it
holds Python None, `some (some ())` means it holds an execution result.
-/

/-- Errors raised by the embedded code.  Each constructor corresponds to a
raise site or implicit runtime error of the Python source. -/
inductive Err where
  /-- Python AttributeError: reading an attribute that was never assigned
  (the `_final_state` read in `BaseCircuit.add`, line 84). -/
  | attributeError (attr : String)
  /-- RuntimeError in `add`, line 85: gates cannot be added after execution. -/
  | frozenCircuit
  /-- ValueError in `add`, line 92: gate declares a qubit total different
  from the circuit (payload: gate count, circuit count). -/
  | qubitCountMismatch (gateN circN : Nat)
  /-- ValueError in `_check_measured`, line 74: qubit already measured. -/
  | measuredReuse (q : Nat)
  /-- KeyError in `_add_measurement`, line 115: register name already used. -/
  | duplicateRegister (name : String)
  /-- ValueError in `_circuit_addition`, line 54: different numbers of qubits. -/
  | sizeMismatch (n1 n2 : Nat)
  /-- Python NameError: an undefined variable is read (the `idx` reads in
  `to_qasm`, lines 156 and 161). -/
  | nameError (var : String)
  /-- Python IndexError: a sequence indexed out of range (the `ids` reads
  in `to_qasm`). -/
  | indexError (i : Nat)
deriving DecidableEq, Repr

/-- Gate collaborator value.  The gate module is not part of the analysed
source; the fields are the capability surface the circuit consumes
(spec section 6): a kind tag `name` ("measure" marks measurement gates),
the ordered target qubits, the gate's own optional qubit total
(`gate._nqubits`, `none` when unset) and the optional register name. -/
structure Gate where
  name : String
  target_qubits : List Nat
  nqubits : Option Nat
  register_name : Option String
deriving DecidableEq, Repr

/-- Modelled from the spec: the gate module defining the `qubits` accessor
is not under the analysed source; spec section 4.4 has the measured-qubit
guard range over the candidate gate target set, so `qubits` is the ordered
target qubits. -/
def Gate.qubits (g : Gate) : List Nat :=
  g.target_qubits

/-- Modelled from the spec: `Gate._add` of the external gate module,
the measurement merge of spec section 4.2 - the target set becomes the
union, preserving first-seen order and appending the new qubits. -/
def Gate.addTargets (g : Gate) (qs : List Nat) : Gate :=
  { g with target_qubits :=
      g.target_qubits ++ qs.filter (fun q => ! g.target_qubits.contains q) }

/-- Value stored in `measurement_sets`: the first registration stores a
Python `set(gate.target_qubits)` (line 121), a later registration stores
the gate target tuple directly (line 124).  The two Python shapes are kept
apart so the stored representation is faithful. -/
inductive RegVal where
  | pySet (qs : List Nat)
  | pyTuple (qs : List Nat)
deriving DecidableEq, Repr

/-- Python dict assignment `d[k] = v` on an association list: replace the
value of an existing key in place, else append the new binding. -/
def dictSet : List (String × RegVal) → String → RegVal → List (String × RegVal)
  | [], k, v => [(k, v)]
  | p :: rest, k, v => if p.1 = k then (k, v) :: rest else p :: dictSet rest k v

/-- Python membership test `k in d` on an association list. -/
def dictMem (l : List (String × RegVal)) (k : String) : Bool :=
  l.any (fun p => p.1 = k)

/-- State of a `BaseCircuit` object.  `final_state` models the Python
attribute `_final_state`, which `__init__` never assigns: `none` is the
absent attribute, `some none` is the attribute holding Python None,
`some (some ())` is the attribute holding an execution result. -/
structure BaseCircuit where
  nqubits : Nat
  queue : List Gate
  is_executed : Bool
  measurement_sets : List (String × RegVal)
  measurement_gate : Option Gate
  final_state : Option (Option Unit)
deriving DecidableEq, Repr

/-- BaseCircuit.__init__ (lines 29-38): empty queue, `is_executed` False,
empty measurement sets, no measurement gate.  The attribute `_final_state`
is never assigned, hence `final_state := none`. -/
def BaseCircuit.init (nqubits : Nat) : BaseCircuit :=
  { nqubits := nqubits
    queue := []
    is_executed := false
    measurement_sets := []
    measurement_gate := none
    final_state := none }

/-- Modelled from the spec: the Building lifecycle state (spec sections 3
and 9) of a concrete backend circuit before execution, in which the
`_final_state` attribute exists and holds None; the concrete subclasses
assigning it are outside the analysed source. -/
def BaseCircuit.building (n : Nat) : BaseCircuit :=
  { BaseCircuit.init n with final_state := some none }

/-- Lines 88-94 of `add`: back-fill `gate.nqubits` from the circuit when
unset, else reject a differing declared count with ValueError. -/
def BaseCircuit.set_gate_nqubits (c : BaseCircuit) (g : Gate) : Except Err Gate :=
  match g.nqubits with
  | none => Except.ok { g with nqubits := some c.nqubits }
  | some k =>
      if k = c.nqubits then Except.ok g
      else Except.error (Err.qubitCountMismatch k c.nqubits)

/-- BaseCircuit._check_measured (lines 64-75): reject any qubit of the
candidate gate that is already a target of the installed measurement gate. -/
def BaseCircuit.check_measured (c : BaseCircuit) : List Nat → Except Err Unit
  | [] => Except.ok ()
  | q :: qs =>
      match c.measurement_gate with
      | some mg =>
          if q ∈ mg.target_qubits then Except.error (Err.measuredReuse q)
          else c.check_measured qs
      | none => c.check_measured qs

/-- Lines 118-124 of `_add_measurement`: install the gate as the global
measurement gate when none exists (recording a Python set of its targets),
else merge its targets into the existing gate (recording the target tuple). -/
def BaseCircuit.install_measurement (c : BaseCircuit) (name : String) (g : Gate) : BaseCircuit :=
  match c.measurement_gate with
  | none =>
      { c with measurement_gate := some g
               measurement_sets := dictSet c.measurement_sets name (RegVal.pySet g.target_qubits) }
  | some mg =>
      { c with measurement_gate := some (mg.addTargets g.target_qubits)
               measurement_sets := dictSet c.measurement_sets name (RegVal.pyTuple g.target_qubits) }

/-- BaseCircuit._add_measurement (lines 102-124): resolve the register
name - a default name Register<k> (k = current number of registers) when
the gate carries none, a KeyError when an explicit name is already used -
then install or merge the measurement gate. -/
def BaseCircuit.add_measurement (c : BaseCircuit) (g : Gate) : Except Err BaseCircuit :=
  match g.register_name with
  | none =>
      let name := "Register" ++ toString c.measurement_sets.length
      Except.ok (c.install_measurement name { g with register_name := some name })
  | some name =>
      if dictMem c.measurement_sets name then Except.error (Err.duplicateRegister name)
      else Except.ok (c.install_measurement name g)

/-- BaseCircuit.add (lines 77-100): read `_final_state` (AttributeError
when never assigned, RuntimeError when it holds a result), back-fill or
check the gate qubit count, run the measured-qubit guard, then dispatch to
measurement handling or append to the queue. -/
def BaseCircuit.add (c : BaseCircuit) (g : Gate) : Except Err BaseCircuit :=
  match c.final_state with
  | none => Except.error (Err.attributeError "_final_state")
  | some (some _) => Except.error Err.frozenCircuit
  | some none =>
      match c.set_gate_nqubits g with
      | Except.error e => Except.error e
      | Except.ok g2 =>
          match c.check_measured g2.qubits with
          | Except.error e => Except.error e
          | Except.ok _ =>
              if g2.name = "measure" then c.add_measurement g2
              else Except.ok { c with queue := c.queue ++ [g2] }

/-- Sequential replay of a gate list through `add`, as the loops of
`_circuit_addition` do; the first failure aborts. -/
def BaseCircuit.addAll : BaseCircuit → List Gate → Except Err BaseCircuit
  | c, [] => Except.ok c
  | c, g :: gs =>
      match c.add g with
      | Except.ok c2 => BaseCircuit.addAll c2 gs
      | Except.error e => Except.error e

/-- BaseCircuit._circuit_addition (lines 51-62), reached from `__add__`
(line 49) which passes `cls = BaseCircuit`: reject unequal sizes with
ValueError, build a fresh `BaseCircuit.init` circuit, then replay the
first queue followed by the second queue through `add`. -/
def BaseCircuit.circuit_addition (c1 c2 : BaseCircuit) : Except Err BaseCircuit :=
  if c1.nqubits ≠ c2.nqubits then Except.error (Err.sizeMismatch c1.nqubits c2.nqubits)
  else
    match BaseCircuit.addAll (BaseCircuit.init c1.nqubits) c1.queue with
    | Except.error e => Except.error e
    | Except.ok c => BaseCircuit.addAll c c2.queue

/-- Recognizer for the measured-qubit reuse rejection. -/
def isMeasuredReuse : Except Err BaseCircuit → Bool
  | Except.error (Err.measuredReuse _) => true
  | _ => false

/-- Python list extension `code += s` where `s` is a string: the list is
extended by the characters of the string, one element each. -/
def pyExtendStr (code : List String) (s : String) : List String :=
  code ++ s.toList.map (fun ch => Char.toString ch)

/-- Python `list.insert(n, a)`. -/
def listInsert {α : Type} (n : Nat) (a : α) (l : List α) : List α :=
  l.take n ++ a :: l.drop n

/-- One iteration of the `to_qasm` loop (lines 152-171) on the pair
returned by `item.gate2qasm()`, threading the code list and the
`is_measure` flag.  The MX and MY branches format an f-string reading the
undefined variable `idx` (after extending the code list character-wise
with the basis-change lines), so they raise NameError; the measure branch
extends the code list character-wise; any other opcode appends one whole
instruction line. -/
def qasmStep (code : List String) (im : Bool) : String × List Nat → Except Err (List String × Bool)
  | (gate, ids) =>
      if gate = "MX" then
        match ids.get? 0 with
        | none => Except.error (Err.indexError 0)
        | some _ => Except.error (Err.nameError "idx")
      else if gate = "MY" then
        match ids.get? 0, ids.get? 1 with
        | none, _ => Except.error (Err.indexError 0)
        | some _, none => Except.error (Err.indexError 1)
        | some _, some _ => Except.error (Err.nameError "idx")
      else if gate = "measure" then
        match ids.get? 0 with
        | none => Except.error (Err.indexError 0)
        | some a =>
            Except.ok (pyExtendStr code ("measure q[" ++ toString a ++ "] -> c[0];\n"), true)
      else
        match ids with
        | [] => Except.error (Err.indexError 0)
        | [a] => Except.ok (code ++ [gate ++ " q[" ++ toString a ++ "];"], im)
        | a :: b :: _ =>
            Except.ok (code ++ [gate ++ " q[" ++ toString a ++ "], q[" ++ toString b ++ "];"], im)

/-- The `to_qasm` loop over the lowered queue. -/
def qasmLoop (code : List String) (im : Bool) : List (String × List Nat) → Except Err (List String × Bool)
  | [] => Except.ok (code, im)
  | item :: rest =>
      match qasmStep code im item with
      | Except.ok (code2, im2) => qasmLoop code2 im2 rest
      | Except.error e => Except.error e

/-- Body of BaseCircuit.to_qasm (lines 141-174) as a function of the
circuit size and the per-gate `gate2qasm()` results: fixed header lines,
the loop, the conditional insertion of the classical register declaration
at position 4, and the newline join. -/
def qasmBody (nqubits : Nat) (lowered : List (String × List Nat)) : Except Err String :=
  let header : List String :=
    ["# Generated by QIBO", "OPENQASM 2.0;", "include \"qelib1.inc\";",
     "qreg q[" ++ toString nqubits ++ "];"]
  match qasmLoop header false lowered with
  | Except.error e => Except.error e
  | Except.ok (code, is_measure) =>
      Except.ok (String.intercalate "\n"
        (if is_measure then listInsert 4 "creg c[1];" code else code))

/-- BaseCircuit.to_qasm, parametrized by the external `gate2qasm`
capability of Gate (the loop consumes nothing else of each gate). -/
def BaseCircuit.to_qasm (c : BaseCircuit) (gate2qasm : Gate → String × List Nat) : Except Err String :=
  qasmBody c.nqubits (c.queue.map gate2qasm)

/-- Gradient adapter `_initial_state_grad`, inner tensor
`tf.concat([[0], grad[1:]], axis=0)`: a zero scalar followed by the tail
of the upstream gradient.  Element type generic, as the op is dtype
independent list surgery. -/
def to_initial_state {α : Type} [Zero α] (grad : List α) : List α :=
  (0 : α) :: grad.drop 1

/-- Gradient adapter `_initial_state_grad` (grads file, lines 5-18):
returns the one-element list of input gradients `[to_initial_state]`. -/
def initial_state_grad {α : Type} [Zero α] (grad : List α) : List (List α) :=
  [to_initial_state grad]

/-- Concrete gates and circuits used as evaluation inputs below. -/
def gH1 : Gate :=
  { name := "h", target_qubits := [0], nqubits := some 1, register_name := none }

def gH2 : Gate :=
  { name := "h", target_qubits := [0], nqubits := some 2, register_name := none }

def gCX : Gate :=
  { name := "cx", target_qubits := [0, 1], nqubits := some 2, register_name := none }

def gMX : Gate :=
  { name := "MX", target_qubits := [0], nqubits := some 1, register_name := none }

def gX0 : Gate :=
  { name := "x", target_qubits := [0], nqubits := some 2, register_name := none }

def mExplicit : Gate :=
  { name := "measure", target_qubits := [0], nqubits := some 2, register_name := some "Register1" }

def mUnnamed : Gate :=
  { name := "measure", target_qubits := [1], nqubits := some 2, register_name := none }

def mReg : Gate :=
  { name := "measure", target_qubits := [0], nqubits := some 1, register_name := some "r" }

/-- Lowering function used for evaluation: opcode is the gate name,
operands are its target qubits. -/
def g2qDemo (g : Gate) : String × List Nat :=
  (g.name, g.target_qubits)

/-- One-qubit circuit holding a single ordinary gate. -/
def cA : BaseCircuit :=
  { BaseCircuit.building 1 with queue := [gH1] }

/-- Empty one-qubit circuit in the building state. -/
def cB : BaseCircuit :=
  BaseCircuit.building 1

/-- One-qubit circuit holding only a measurement gate (empty queue). -/
def cM : BaseCircuit :=
  { BaseCircuit.building 1 with
      measurement_gate := some mReg
      measurement_sets := [("r", RegVal.pySet [0])] }

/-- Constructor-built circuit with the executed flag raised. -/
def cExecFlag : BaseCircuit :=
  { BaseCircuit.init 1 with is_executed := true }

/-- Building-state circuit with the executed flag raised. -/
def cExecFlagB : BaseCircuit :=
  { cExecFlag with final_state := some none }

/-- Two-qubit building circuit with one explicitly named register. -/
def cRegA : BaseCircuit :=
  { BaseCircuit.building 2 with
      measurement_gate := some mExplicit
      measurement_sets := [("Register1", RegVal.pySet [0])] }

/-- Result of adding the unnamed measurement `mUnnamed` to `cRegA`. -/
def cRegB : BaseCircuit :=
  { BaseCircuit.building 2 with
      measurement_gate := some
        { name := "measure", target_qubits := [0, 1], nqubits := some 2,
          register_name := some "Register1" }
      measurement_sets := [("Register1", RegVal.pyTuple [1])] }

/-- Two-qubit circuit lowering to a Hadamard and a controlled-not. -/
def cHCX : BaseCircuit :=
  { BaseCircuit.building 2 with queue := [gH2, gCX] }

/-- One-qubit circuit whose single gate lowers to the MX opcode. -/
def cMX : BaseCircuit :=
  { BaseCircuit.building 1 with queue := [gMX] }

/-- Gate declaring a qubit total of 3. -/
def gBad : Gate :=
  { name := "x", target_qubits := [0], nqubits := some 3, register_name := none }

/-- Measurement gate whose explicit register name collides with the one
recorded in `cRegA`. -/
def mDup : Gate :=
  { name := "measure", target_qubits := [1], nqubits := some 2, register_name := some "Register1" }

/-- C10: on any circuit built by the BaseCircuit constructor itself, every
add call fails with AttributeError on the never assigned `_final_state`
attribute, before any of the documented precondition checks (the guard
reads `_final_state` rather than the `is_executed` flag the constructor
sets). -/
theorem C10_add_attribute_error (n : Nat) (g : Gate) :
    (BaseCircuit.init n).add g = Except.error (Err.attributeError "_final_state") :=
  rfl

/-- C2 evaluation: with the executed flag true, add on a constructor-built
circuit raises AttributeError, and add on a building-state circuit (with
the `_final_state` attribute present and None) succeeds and appends the
gate - in neither case is the FrozenCircuitError of the claim raised, and
in the second case the queue is mutated. -/
theorem C2_eval_guard_ignores_flag :
    cExecFlag.add gH1 = Except.error (Err.attributeError "_final_state")
    ∧ cExecFlagB.add gH1 = Except.ok { cExecFlagB with queue := [gH1] } :=
  ⟨rfl, rfl⟩

/-- C1 evaluation: adding a one-gate circuit to an empty circuit of equal
size raises AttributeError (the fresh circuit built by `_circuit_addition`
never has `_final_state` assigned), and adding a circuit whose only
content is a measurement gate yields a circuit with no gates at all (only
`queue` is replayed, so the measurement gate is dropped and no register
collision can ever be detected). -/
theorem C1_eval_addition_broken :
    BaseCircuit.circuit_addition cA cB = Except.error (Err.attributeError "_final_state")
    ∧ BaseCircuit.circuit_addition cM cB = Except.ok (BaseCircuit.init 1) :=
  ⟨rfl, rfl⟩

/-- C8 evaluation: with A holding one gate and B, C empty and all of equal
size, both bracketings of the composition raise AttributeError, so the
composed circuits the claim compares are never produced for circuits with
any gate content. -/
theorem C8_eval_assoc_unreachable :
    Except.bind (BaseCircuit.circuit_addition cA cB)
      (fun ab => BaseCircuit.circuit_addition ab cB)
      = Except.error (Err.attributeError "_final_state")
    ∧ Except.bind (BaseCircuit.circuit_addition cB cB)
      (fun bc => BaseCircuit.circuit_addition cA bc)
      = Except.error (Err.attributeError "_final_state") :=
  ⟨rfl, rfl⟩

/-- C7 evaluation: on a circuit whose single gate lowers to the MX
measurement opcode, to_qasm raises NameError on the undefined variable
`idx` instead of returning any text, so no classical register declaration
is produced. -/
theorem C7_eval_mx_name_error :
    cMX.to_qasm g2qDemo = Except.error (Err.nameError "idx") :=
  rfl

/-- C6: every two-qubit circuit whose queue lowers through gate2qasm to a
Hadamard on qubit 0 followed by a controlled-not on qubits 0,1 with no
measurement opcode serializes to exactly the header comment, version
pragma, include line, the two-qubit quantum register declaration and the
two gate lines, newline-joined, with no classical register line. -/
theorem C6_to_qasm_h_cx (c : BaseCircuit) (g2q : Gate → String × List Nat)
    (h1 : c.nqubits = 2)
    (h2 : c.queue.map g2q = [("h", [0]), ("cx", [0, 1])]) :
    c.to_qasm g2q =
      Except.ok ("# Generated by QIBO\nOPENQASM 2.0;\ninclude \"qelib1.inc\";\nqreg q[2];\nh q[0];\ncx q[0], q[1];") := by
  unfold BaseCircuit.to_qasm
  rw [h1, h2]
  rfl

/-- Witness for C6 at the concrete circuit `cHCX`. -/
theorem C6_witness :
    cHCX.nqubits = 2
    ∧ cHCX.queue.map g2qDemo = [("h", [0]), ("cx", [0, 1])]
    ∧ cHCX.to_qasm g2qDemo =
      Except.ok ("# Generated by QIBO\nOPENQASM 2.0;\ninclude \"qelib1.inc\";\nqreg q[2];\nh q[0];\ncx q[0], q[1];") :=
  ⟨rfl, rfl, C6_to_qasm_h_cx cHCX g2qDemo rfl rfl⟩

/-- Keys present after a Python dict assignment are the old keys or the
assigned key. -/
theorem dictSet_fst_mem (l : List (String × RegVal)) (k x : String) (v : RegVal)
    (h : x ∈ (dictSet l k v).map Prod.fst) : x ∈ l.map Prod.fst ∨ x = k := by
  induction l with
  | nil =>
      simp only [dictSet, List.map_cons, List.map_nil, List.mem_cons,
        List.not_mem_nil, or_false] at h
      exact Or.inr h
  | cons p rest ih =>
      by_cases hpk : p.1 = k
      · simp only [dictSet] at h
        rw [if_pos hpk] at h
        simp only [List.map_cons, List.mem_cons] at h
        rcases h with h | h
        · exact Or.inr h
        · exact Or.inl (by rw [List.map_cons]; exact List.mem_cons_of_mem _ h)
      · simp only [dictSet] at h
        rw [if_neg hpk] at h
        simp only [List.map_cons, List.mem_cons] at h
        rcases h with h | h
        · exact Or.inl (by rw [List.map_cons]; exact List.mem_cons.mpr (Or.inl h))
        · rcases ih h with h2 | h2
          · exact Or.inl (by rw [List.map_cons]; exact List.mem_cons_of_mem _ h2)
          · exact Or.inr h2

/-- Python dict assignment keeps the keys pairwise distinct. -/
theorem dictSet_fst_nodup (l : List (String × RegVal)) (k : String) (v : RegVal)
    (h : (l.map Prod.fst).Nodup) : ((dictSet l k v).map Prod.fst).Nodup := by
  induction l with
  | nil => simp [dictSet]
  | cons p rest ih =>
      simp only [List.map_cons, List.nodup_cons] at h
      obtain ⟨hp, hrest⟩ := h
      by_cases hpk : p.1 = k
      · simp only [dictSet, if_pos hpk, List.map_cons, List.nodup_cons]
        exact ⟨hpk ▸ hp, hrest⟩
      · simp only [dictSet, if_neg hpk, List.map_cons, List.nodup_cons]
        refine ⟨fun hmem => ?_, ih hrest⟩
        rcases dictSet_fst_mem rest k p.1 v hmem with h1 | h1
        · exact hp h1
        · exact hpk h1

/-- The measurement sets after an install are a dict assignment on the old
measurement sets. -/
theorem install_measurement_sets (c : BaseCircuit) (name : String) (g : Gate) :
    ∃ v, (c.install_measurement name g).measurement_sets = dictSet c.measurement_sets name v := by
  rcases hmg : c.measurement_gate with _ | mg
  · exact ⟨RegVal.pySet g.target_qubits, by simp [BaseCircuit.install_measurement, hmg]⟩
  · exact ⟨RegVal.pyTuple g.target_qubits, by simp [BaseCircuit.install_measurement, hmg]⟩

/-- A successful measurement-add rewrites the measurement sets by one dict
assignment. -/
theorem add_measurement_ok_sets (c c' : BaseCircuit) (g : Gate)
    (h : c.add_measurement g = Except.ok c') :
    ∃ name v, c'.measurement_sets = dictSet c.measurement_sets name v := by
  rcases hrn : g.register_name with _ | name
  · simp [BaseCircuit.add_measurement, hrn] at h
    obtain ⟨v, hv⟩ := install_measurement_sets c
      ("Register" ++ toString c.measurement_sets.length)
      { g with register_name := some ("Register" ++ toString c.measurement_sets.length) }
    exact ⟨_, v, h ▸ hv⟩
  · by_cases hd : dictMem c.measurement_sets name
    · simp [BaseCircuit.add_measurement, hrn, hd] at h
    · simp [BaseCircuit.add_measurement, hrn, hd] at h
      obtain ⟨v, hv⟩ := install_measurement_sets c name g
      exact ⟨name, v, h ▸ hv⟩

/-- A successful add leaves the measurement sets unchanged or rewrites
them by one dict assignment. -/
theorem add_ok_sets (c c' : BaseCircuit) (g : Gate) (h : c.add g = Except.ok c') :
    c'.measurement_sets = c.measurement_sets ∨
    ∃ name v, c'.measurement_sets = dictSet c.measurement_sets name v := by
  rcases hfs : c.final_state with _ | ofs
  · simp [BaseCircuit.add, hfs] at h
  · rcases ofs with _ | r
    · rcases hsg : c.set_gate_nqubits g with e | g2
      · simp [BaseCircuit.add, hfs, hsg] at h
      · rcases hcm : c.check_measured g2.qubits with e | u
        · simp [BaseCircuit.add, hfs, hsg, hcm] at h
        · by_cases hm : g2.name = "measure"
          · have h2 : c.add_measurement g2 = Except.ok c' := by
              rw [← h]
              simp [BaseCircuit.add, hfs, hsg, hcm, hm]
            exact Or.inr (add_measurement_ok_sets c c' g2 h2)
          · simp [BaseCircuit.add, hfs, hsg, hcm, hm] at h
            exact Or.inl (by rw [← h])
    · simp [BaseCircuit.add, hfs] at h

/-- When the measurement gate holds a qubit of the candidate list, the
measured-qubit guard rejects with a reuse error. -/
theorem check_measured_mem_error (c : BaseCircuit) (mg : Gate)
    (hmg : c.measurement_gate = some mg) :
    ∀ (qs : List Nat) (q : Nat), q ∈ qs → q ∈ mg.target_qubits →
    ∃ q2, c.check_measured qs = Except.error (Err.measuredReuse q2) := by
  intro qs
  induction qs with
  | nil => intro q hq _; cases hq
  | cons a tl ih =>
      intro q hq hqm
      by_cases ha : a ∈ mg.target_qubits
      · exact ⟨a, by simp [BaseCircuit.check_measured, hmg, ha]⟩
      · have hstep : c.check_measured (a :: tl) = c.check_measured tl := by
          simp [BaseCircuit.check_measured, hmg, ha]
        rw [hstep]
        rcases List.mem_cons.mp hq with rfl | htl
        · exact absurd hqm ha
        · exact ih q htl hqm

/-- Every error of the measured-qubit guard is a reuse error. -/
theorem check_measured_error_is_reuse (c : BaseCircuit) :
    ∀ (qs : List Nat) (e : Err), c.check_measured qs = Except.error e →
    ∃ q, e = Err.measuredReuse q := by
  intro qs
  induction qs with
  | nil =>
      intro e he
      simp [BaseCircuit.check_measured] at he
  | cons a tl ih =>
      intro e he
      rcases hmg : c.measurement_gate with _ | mg
      · simp [BaseCircuit.check_measured, hmg] at he
        exact ih e he
      · by_cases ha : a ∈ mg.target_qubits
        · simp [BaseCircuit.check_measured, hmg, ha] at he
          exact ⟨a, he.symm⟩
        · simp [BaseCircuit.check_measured, hmg, ha] at he
          exact ih e he

/-- Every error of the measurement handler is a duplicate-register error. -/
theorem add_measurement_error_is_dup (c : BaseCircuit) (g : Gate) (e : Err)
    (h : c.add_measurement g = Except.error e) :
    ∃ name, e = Err.duplicateRegister name := by
  rcases hrn : g.register_name with _ | name
  · simp [BaseCircuit.add_measurement, hrn] at h
  · by_cases hd : dictMem c.measurement_sets name
    · simp [BaseCircuit.add_measurement, hrn, hd] at h
      exact ⟨name, h.symm⟩
    · simp [BaseCircuit.add_measurement, hrn, hd] at h

/-- A qubit-count mismatch error of add pins down the gate declaration. -/
theorem add_error_mismatch_shape (c : BaseCircuit) (g : Gate) (k m : Nat)
    (hfs : c.final_state = some none)
    (he : c.add g = Except.error (Err.qubitCountMismatch k m)) :
    g.nqubits = some k ∧ k ≠ c.nqubits ∧ m = c.nqubits := by
  rcases hsg : c.set_gate_nqubits g with e | g2
  · have hadd : c.add g = Except.error e := by simp [BaseCircuit.add, hfs, hsg]
    rw [hadd] at he
    injection he with hekm
    rcases hn : g.nqubits with _ | j
    · simp [BaseCircuit.set_gate_nqubits, hn] at hsg
    · by_cases hj : j = c.nqubits
      · simp [BaseCircuit.set_gate_nqubits, hn, hj] at hsg
      · simp [BaseCircuit.set_gate_nqubits, hn, hj] at hsg
        rw [hekm] at hsg
        injection hsg with h1 h2
        subst h1
        subst h2
        exact ⟨rfl, hj, rfl⟩
  · rcases hcm : c.check_measured g2.qubits with e2 | u
    · have hadd : c.add g = Except.error e2 := by simp [BaseCircuit.add, hfs, hsg, hcm]
      rw [hadd] at he
      injection he with hekm
      obtain ⟨q, hq⟩ := check_measured_error_is_reuse c g2.qubits e2 hcm
      rw [hq] at hekm
      exact Err.noConfusion hekm
    · by_cases hm2 : g2.name = "measure"
      · have hadd : c.add g = c.add_measurement g2 := by
          simp [BaseCircuit.add, hfs, hsg, hcm, hm2]
        rw [hadd] at he
        obtain ⟨nm, hnm⟩ := add_measurement_error_is_dup c g2 _ he
        exact Err.noConfusion hnm
      · have hadd : c.add g = Except.ok { c with queue := c.queue ++ [g2] } := by
          simp [BaseCircuit.add, hfs, hsg, hcm, hm2]
        rw [hadd] at he
        exact Except.noConfusion he

/-- C3 (amended): in the building state, an add of a measurement gate
carrying an explicit register name that is already recorded fails with the
duplicate-register KeyError (provided the earlier add stages pass), and
every successful add keeps the recorded register names pairwise distinct;
the default-generated-name collision excluded here is settled by the
counterexample. -/
theorem C3_register_discipline (c c' : BaseCircuit) (g : Gate) (name : String)
    (hfs : c.final_state = some none) :
    ((g.nqubits = none ∨ g.nqubits = some c.nqubits) →
      c.check_measured g.qubits = Except.ok () →
      g.name = "measure" →
      g.register_name = some name →
      dictMem c.measurement_sets name = true →
      c.add g = Except.error (Err.duplicateRegister name))
    ∧ (c.add g = Except.ok c' →
      (c.measurement_sets.map Prod.fst).Nodup →
      (c'.measurement_sets.map Prod.fst).Nodup) := by
  constructor
  · intro hnq hcm hmeas hname hdict
    have hcm2 : c.check_measured g.target_qubits = Except.ok () := hcm
    rcases hnq with hn | hn
    · simp [BaseCircuit.add, hfs, BaseCircuit.set_gate_nqubits, hn, Gate.qubits, hcm2,
            hmeas, BaseCircuit.add_measurement, hname, hdict]
    · simp [BaseCircuit.add, hfs, BaseCircuit.set_gate_nqubits, hn, Gate.qubits, hcm2,
            hmeas, BaseCircuit.add_measurement, hname, hdict]
  · intro hok hnd
    rcases add_ok_sets c c' g hok with heq | ⟨name2, v, heq⟩
    · rw [heq]; exact hnd
    · rw [heq]; exact dictSet_fst_nodup _ _ _ hnd

/-- Witness for C3 at the concrete circuit `cRegA` and gate `mDup`. -/
theorem C3_witness :
    cRegA.final_state = some none
    ∧ (((mDup.nqubits = none ∨ mDup.nqubits = some cRegA.nqubits) →
        cRegA.check_measured mDup.qubits = Except.ok () →
        mDup.name = "measure" →
        mDup.register_name = some "Register1" →
        dictMem cRegA.measurement_sets "Register1" = true →
        cRegA.add mDup = Except.error (Err.duplicateRegister "Register1"))
      ∧ (cRegA.add mDup = Except.ok cRegA →
        (cRegA.measurement_sets.map Prod.fst).Nodup →
        (cRegA.measurement_sets.map Prod.fst).Nodup)) :=
  ⟨rfl, C3_register_discipline cRegA cRegA mDup "Register1" rfl⟩

/-- Counterexample for C3 as stated: after recording the explicit register
name Register1, adding an unnamed measurement succeeds (its default name
Register1 collides with the recorded name without being checked) and the
recorded entry is overwritten. -/
theorem C3_cex_generated_name_overwrites :
    (BaseCircuit.building 2).add mExplicit = Except.ok cRegA
    ∧ cRegA.add mUnnamed = Except.ok cRegB
    ∧ cRegA.measurement_sets = [("Register1", RegVal.pySet [0])]
    ∧ cRegB.measurement_sets = [("Register1", RegVal.pyTuple [1])] :=
  ⟨rfl, rfl, rfl, rfl⟩

/-- C4: in the building state, a gate (ordinary or measurement) that is
count-compatible and touches a qubit already targeted by the installed
measurement gate is rejected by add with the measured-qubit reuse
ValueError - the guard runs before the measurement-merge logic, so the
rejection holds for measurement gates with fresh register names too. -/
theorem C4_measured_qubit_frozen (c : BaseCircuit) (mg g : Gate) (q : Nat)
    (hfs : c.final_state = some none)
    (hnq : g.nqubits = none ∨ g.nqubits = some c.nqubits)
    (hmg : c.measurement_gate = some mg)
    (hq : q ∈ g.qubits) (hqm : q ∈ mg.target_qubits) :
    isMeasuredReuse (c.add g) = true := by
  obtain ⟨q2, hcm⟩ : ∃ q2, c.check_measured g.target_qubits
      = Except.error (Err.measuredReuse q2) :=
    check_measured_mem_error c mg hmg g.target_qubits q hq hqm
  rcases hnq with hn | hn
  · simp [BaseCircuit.add, hfs, BaseCircuit.set_gate_nqubits, hn, Gate.qubits, hcm,
          isMeasuredReuse]
  · simp [BaseCircuit.add, hfs, BaseCircuit.set_gate_nqubits, hn, Gate.qubits, hcm,
          isMeasuredReuse]

/-- Witness for C4: a one-qubit ordinary gate on the measured qubit 0 of
`cRegA` is rejected as measured-qubit reuse. -/
theorem C4_witness :
    cRegA.final_state = some none
    ∧ (gX0.nqubits = none ∨ gX0.nqubits = some cRegA.nqubits)
    ∧ cRegA.measurement_gate = some mExplicit
    ∧ 0 ∈ gX0.qubits
    ∧ 0 ∈ mExplicit.target_qubits
    ∧ isMeasuredReuse (cRegA.add gX0) = true :=
  ⟨rfl, Or.inr rfl, rfl, by decide, by decide,
    C4_measured_qubit_frozen cRegA mExplicit gX0 0 rfl (Or.inr rfl) rfl (by decide) (by decide)⟩

/-- C5: in the building state, add back-fills an unset gate qubit count
from the circuit (the call proceeds exactly as with the back-filled gate),
rejects a differing declared count with the qubit-count ValueError, and
conversely a qubit-count error can only arise from a differing declared
count. -/
theorem C5_qubit_count (c : BaseCircuit) (g : Gate) (k m : Nat)
    (hfs : c.final_state = some none) :
    (g.nqubits = none → c.add g = c.add { g with nqubits := some c.nqubits })
    ∧ (g.nqubits = some k → k ≠ c.nqubits →
        c.add g = Except.error (Err.qubitCountMismatch k c.nqubits))
    ∧ (c.add g = Except.error (Err.qubitCountMismatch k m) →
        g.nqubits = some k ∧ k ≠ c.nqubits ∧ m = c.nqubits) := by
  refine ⟨?_, ?_, ?_⟩
  · intro hn
    simp [BaseCircuit.add, hfs, BaseCircuit.set_gate_nqubits, hn]
  · intro hn hk
    simp [BaseCircuit.add, hfs, BaseCircuit.set_gate_nqubits, hn, hk]
  · intro he
    exact add_error_mismatch_shape c g k m hfs he

/-- Witness for C5: a gate declaring 3 qubits added to a two-qubit
building circuit. -/
theorem C5_witness :
    (BaseCircuit.building 2).final_state = some none
    ∧ ((gBad.nqubits = none →
        (BaseCircuit.building 2).add gBad
          = (BaseCircuit.building 2).add { gBad with nqubits := some (BaseCircuit.building 2).nqubits })
      ∧ (gBad.nqubits = some 3 → 3 ≠ (BaseCircuit.building 2).nqubits →
        (BaseCircuit.building 2).add gBad
          = Except.error (Err.qubitCountMismatch 3 (BaseCircuit.building 2).nqubits))
      ∧ ((BaseCircuit.building 2).add gBad = Except.error (Err.qubitCountMismatch 3 2) →
        gBad.nqubits = some 3 ∧ 3 ≠ (BaseCircuit.building 2).nqubits
          ∧ 2 = (BaseCircuit.building 2).nqubits)) :=
  ⟨rfl, C5_qubit_count (BaseCircuit.building 2) gBad 3 2 rfl⟩

/-- C9: the initial-state gradient adapter returns the single downstream
gradient obtained from the upstream gradient by zeroing index 0 and
passing every later index through unchanged, with the length preserved. -/
theorem C9_initial_state_grad {α : Type} [Zero α] (grad : List α) (i : Nat)
    (hlen : 1 ≤ grad.length) (hi : 1 ≤ i) :
    initial_state_grad grad = [to_initial_state grad]
    ∧ (to_initial_state grad).length = grad.length
    ∧ (to_initial_state grad).get? 0 = some 0
    ∧ (to_initial_state grad).get? i = grad.get? i := by
  match grad, hlen with
  | a :: tl, _ =>
    refine ⟨rfl, by simp [to_initial_state], rfl, ?_⟩
    match i, hi with
    | Nat.succ j, _ => simp [to_initial_state]

/-- Witness for C9 at the integer gradient [5, 7] and index 1. -/
theorem C9_witness :
    1 ≤ ([5, 7] : List Int).length
    ∧ 1 ≤ 1
    ∧ (initial_state_grad ([5, 7] : List Int) = [to_initial_state ([5, 7] : List Int)]
      ∧ (to_initial_state ([5, 7] : List Int)).length = ([5, 7] : List Int).length
      ∧ (to_initial_state ([5, 7] : List Int)).get? 0 = some 0
      ∧ (to_initial_state ([5, 7] : List Int)).get? 1 = ([5, 7] : List Int).get? 1) :=
  ⟨by decide, by decide,
    C9_initial_state_grad ([5, 7] : List Int) 1 (by decide) (by decide)⟩
